import Mathlib

/-!
Shallow embedding of `mixin_overrides.py`, a demo script declaring a toy
filesystem domain (FileSystem, EntryCommon, File, Directory, Resource,
ResourcesBearer mixin, Executable, DirectoryEntry) on top of an ORM and
running a short linear scenario.  Mapped objects are modelled as immutable
Lean structures; attribute assignment through a Python property setter is
modelled as a function from the old object (plus the assigned value) to the
new object.  The Python module-level global `filesystem` that the buggy
`EntryCommon.filesystem` setter reads is passed explicitly as a
`globalFilesystem` argument.  External serializers (`json.dumps`,
`pickle.dumps`) are arbitrary functions supplied as parameters.
-/

namespace MixinOverrides

/-- `class FileSystem(Base)`: columns `device` and `backend` (the primary key
`fsid` is ORM bookkeeping and omitted).  `FileSystem.__init__` sets both. -/
structure FileSystem where
  device : String
  backend : String
deriving DecidableEq, Repr

/-- `class Resource(Base)`: a named, encoded side value attached to an entry.
`Resource.__init__(self, name, value)` sets only `name` and `value`; the
`filesystem` relationship starts out unset (`none`). -/
structure Resource where
  name : String
  value : String
  filesystem : Option FileSystem
deriving DecidableEq, Repr

/-- `Resource.__init__(self, name, value)`. -/
def Resource.init (name value : String) : Resource :=
  { name := name, value := value, filesystem := none }

/-- The state contributed by the `ResourcesBearer` mixin: the
`resource_enc` column and the `_resources` relationship collection. -/
structure ResourcesBearer where
  resource_enc : String
  _resources : List Resource
deriving DecidableEq, Repr

/-- `ResourcesBearer.__init__(self, resource_enc="json", **kwargs)` with an
explicit `resource_enc` argument: stores the encoding name, with the
`_resources` relationship collection initially empty. -/
def ResourcesBearer.init (resource_enc : String) : ResourcesBearer :=
  { resource_enc := resource_enc, _resources := [] }

/-- `ResourcesBearer.__init__` when `resource_enc` is not passed: the
parameter defaults to `"json"`. -/
def ResourcesBearer.initDefault : ResourcesBearer :=
  ResourcesBearer.init "json"

/-- A concrete filesystem entry, by dynamic (polymorphic) type:
`File(EntryCommon)` with its `content` column, `Directory(ResourcesBearer,
EntryCommon)` with its resource-fork state and its `entries` collection (the
association-proxy view, holding the child entries in order), and
`Executable(ResourcesBearer, File)` with `content`, `windowed` and its
resource-fork state.  Every variant carries the `EntryCommon` state `name`
and `_filesystem`. -/
inductive Entry where
  | file (name : String) (content : Option String) (_filesystem : Option FileSystem)
  | directory (name : String) (rb : ResourcesBearer) (_filesystem : Option FileSystem)
      (entries : List Entry)
  | executable (name : String) (content : Option String) (windowed : Bool)
      (rb : ResourcesBearer) (_filesystem : Option FileSystem)
deriving Repr

/-- The `EntryCommon.filesystem` property getter: `return self._filesystem`. -/
def Entry.filesystem : Entry → Option FileSystem
  | .file _ _ f => f
  | .directory _ _ f _ => f
  | .executable _ _ _ _ f => f

/-- The `Directory.entries` association-proxy view; empty for non-directories
(which have no such attribute). -/
def Entry.entries : Entry → List Entry
  | .directory _ _ _ es => es
  | _ => []

/-- The `_resources` collection of the `ResourcesBearer` state; empty for a
plain `File` (which has no such attribute). -/
def Entry.resources : Entry → List Resource
  | .file _ _ _ => []
  | .directory _ rb _ _ => rb._resources
  | .executable _ _ _ rb _ => rb._resources

/-- `ResourcesBearer.filesystem` setter, second half: `for res in
self._resources: res.filesystem = value` — each resource's plain
`filesystem` relationship is set to the assigned value. -/
def ResourcesBearer.setResourcesFs (value : Option FileSystem)
    (rb : ResourcesBearer) : ResourcesBearer :=
  { rb with _resources := rb._resources.map (fun r => { r with filesystem := value }) }

mutual

/-- Dynamic dispatch of the assignment `e.filesystem = value`, with
`globalFilesystem` the current binding of the module-level global name
`filesystem`.

* On a plain `File`, the MRO reaches `EntryCommon`'s setter, whose body is
  `self._filesystem = filesystem` — it stores the module-level global
  `filesystem`, not the `value` parameter.
* On an `Executable` (MRO `Executable → ResourcesBearer → File →
  EntryCommon`), `ResourcesBearer`'s setter first delegates upward (hence
  `_filesystem` again becomes the global) and then sets each resource's
  `filesystem` to `value`.
* On a `Directory` (MRO `Directory → ResourcesBearer → EntryCommon`),
  `Directory`'s own setter delegates to the `ResourcesBearer` chain and then
  runs `for entry in self.entries: entry.filesystem = value`, recursing into
  the children. -/
def Entry.setFilesystem (globalFilesystem value : Option FileSystem) :
    Entry → Entry
  | .file n c _ => .file n c globalFilesystem
  | .executable n c w rb _ =>
      .executable n c w (rb.setResourcesFs value) globalFilesystem
  | .directory n rb _ es =>
      .directory n (rb.setResourcesFs value) globalFilesystem
        (Entry.setFilesystemList globalFilesystem value es)

/-- The loop `for entry in self.entries: entry.filesystem = value` of
`Directory.filesystem`'s setter, over the ordered children. -/
def Entry.setFilesystemList (globalFilesystem value : Option FileSystem) :
    List Entry → List Entry
  | [] => []
  | e :: es =>
      Entry.setFilesystem globalFilesystem value e ::
        Entry.setFilesystemList globalFilesystem value es

end

-- --[ Resource forks: encoder lookup and add_resource ]---------------------

/-- `ResourcesBearer._lookup_encoder`: the dictionary lookup
`{"json": json, "pickle": pickle}[self.resource_enc]`.  The two external
serializer modules are passed in as the functions `jsonDumps` and
`pickleDumps`; a key that is neither `"json"` nor `"pickle"` raises
`KeyError`, modelled as `none`. -/
def ResourcesBearer._lookup_encoder {V : Type} (jsonDumps pickleDumps : V → String)
    (self : ResourcesBearer) : Option (V → String) :=
  if self.resource_enc = "json" then some jsonDumps
  else if self.resource_enc = "pickle" then some pickleDumps
  else none

/-- `ResourcesBearer.add_resource(self, name, value)`: look up the encoder
(raising `KeyError` on an unknown `resource_enc`, modelled as
`Except.error` carrying the bad key, with no resource appended), then append
`Resource(name=name, value=encoder.dumps(value))` to `self._resources`. -/
def ResourcesBearer.add_resource {V : Type} (jsonDumps pickleDumps : V → String)
    (self : ResourcesBearer) (name : String) (value : V) :
    Except String ResourcesBearer :=
  match ResourcesBearer._lookup_encoder jsonDumps pickleDumps self with
  | none => Except.error self.resource_enc
  | some encoder =>
      Except.ok { self with
        _resources := self._resources ++ [Resource.init name (encoder value)] }

-- --[ Association proxy: Directory.entries over DirectoryEntry ]------------

/-- `class DirectoryEntry(Base)`: the indirection record of the
`directory_entry` table.  `DirectoryEntry.__init__(self, entry)` sets the
`entry` relationship; the owning directory is fixed by which directory's
`directory_entries` collection the record sits in (the `directory`
relationship backref). -/
structure DirectoryEntry where
  entry : Entry
deriving Repr

/-- The relationship state behind `Directory.entries`: the
`directory_entries` backref collection of indirection records. -/
structure DirectoryEntries where
  directory_entries : List DirectoryEntry
deriving Repr

/-- Assignment `d.entries = es` through the association proxy
`association_proxy("directory_entries", "entry")`: the underlying
`directory_entries` collection is replaced by one creator-built
`DirectoryEntry(e)` per assigned element, in order (prior records are
removed by the `all,delete-orphan` cascade). -/
def DirectoryEntries.setEntries (d : DirectoryEntries) (es : List Entry) :
    DirectoryEntries :=
  { d with directory_entries := es.map (fun e => DirectoryEntry.mk e) }

/-- Reading `d.entries` through the association proxy: the view
`[de.entry for de in d.directory_entries]`. -/
def DirectoryEntries.getEntries (d : DirectoryEntries) : List Entry :=
  d.directory_entries.map (fun de => de.entry)

-- --[ Polymorphic inheritance ]---------------------------------------------

/-- The mapped classes of the `entry` polymorphic hierarchy. -/
inductive EntryClass where
  | entryCommon
  | file
  | directory
  | executable
deriving DecidableEq, Repr

/-- The mapped superclass of each class in the `entry` hierarchy, as declared
in the source (`File(EntryCommon)`, `Directory(ResourcesBearer, EntryCommon)`
and `Executable(ResourcesBearer, File)` — `ResourcesBearer` is an unmapped
mixin, so the mapped base of `Directory` is `EntryCommon` and of `Executable`
is `File`). -/
def EntryClass.baseClass : EntryClass → Option EntryClass
  | .entryCommon => none
  | .file => some .entryCommon
  | .directory => some .entryCommon
  | .executable => some .file

/-- The `polymorphic_identity` declared in each class's `__mapper_args__`
(`EntryCommon` only declares `polymorphic_on` and has no identity). -/
def EntryClass.polymorphic_identity : EntryClass → Option String
  | .entryCommon => none
  | .file => some "file"
  | .directory => some "directory"
  | .executable => some "executable"

/-- The reflexive-transitive chain of mapped superclasses, unfolded with
enough fuel for the four-class hierarchy. -/
def EntryClass.ancestorsAux : Nat → EntryClass → List EntryClass
  | 0, c => [c]
  | Nat.succ k, c =>
      c :: (match EntryClass.baseClass c with
            | none => []
            | some p => EntryClass.ancestorsAux k p)

/-- All mapped superclasses of `c`, including `c` itself. -/
def EntryClass.ancestors (c : EntryClass) : List EntryClass :=
  EntryClass.ancestorsAux 4 c

/-- `issubclass(c, d)` over the mapped hierarchy. -/
def EntryClass.isSubclassOf (c d : EntryClass) : Bool :=
  decide (d ∈ EntryClass.ancestors c)

/-- All classes mapped into the `entry` hierarchy. -/
def allEntryClasses : List EntryClass :=
  [.entryCommon, .file, .directory, .executable]

/-- The discriminator values that occur in the `entry_type` column: the
declared polymorphic identities of the mapped classes. -/
def occurringIdentities : List String :=
  allEntryClasses.filterMap EntryClass.polymorphic_identity

/-- The discriminator values belonging to the `File` and `Directory` subclass
families. -/
def fileOrDirectoryFamilyIdentities : List String :=
  (allEntryClasses.filter
      (fun c => EntryClass.isSubclassOf c .file || EntryClass.isSubclassOf c .directory))
    |>.filterMap EntryClass.polymorphic_identity

/-- The dynamic class of a concrete entry instance. -/
def Entry.entryClass : Entry → EntryClass
  | .file _ _ _ => .file
  | .directory _ _ _ _ => .directory
  | .executable _ _ _ _ _ => .executable

-- --[ Script body ]---------------------------------------------------------

/-- `database_url = sys.argv[1] if len(sys.argv) > 1 else "sqlite:///"`, with
`argv` the full argument vector (program name first, as in `sys.argv`). -/
def database_url (argv : List String) : String :=
  if argv.length > 1 then argv.getD 1 "" else "sqlite:///"

/-- The statements of the script, in declaration granularity: one tag per
top-level action of `mixin_overrides.py` (class declarations first, then the
preparation and scenario lines 202-234).  `rollback` is a session operation
the ORM offers; it is listed so that its absence from the trace can be
stated. -/
inductive ScriptOp where
  | declareSchemaAndClasses
  | computeDatabaseUrl
  | createEngine
  | createAllTables
  | openSession
  | constructFilesystem
  | addFilesystem
  | commitFilesystem
  | constructDocuments
  | constructVideos
  | addResourceVideosIcon
  | assignDocumentsEntries
  | assignVideosEntries
  | setDocumentsFilesystem
  | addDocuments
  | constructPrograms
  | constructCmdExe
  | addResourceCmdExeIcon
  | assignProgramsEntries
  | setProgramsFilesystem
  | addPrograms
  | commitAll
  | printEntriesQuery
  | printDirectoriesQuery
  | printDirectoryMro
  | printExecutableMro
  | rollback
deriving DecidableEq, Repr

/-- The script body as the ordered trace of its top-level statements
(source lines 15-197 for the declarations, then 202-234 one line at a
time). -/
def scriptTrace : List ScriptOp :=
  [ .declareSchemaAndClasses
  , .computeDatabaseUrl
  , .createEngine
  , .createAllTables
  , .openSession
  , .constructFilesystem
  , .addFilesystem
  , .commitFilesystem
  , .constructDocuments
  , .constructVideos
  , .addResourceVideosIcon
  , .assignDocumentsEntries
  , .assignVideosEntries
  , .setDocumentsFilesystem
  , .addDocuments
  , .constructPrograms
  , .constructCmdExe
  , .addResourceCmdExeIcon
  , .assignProgramsEntries
  , .setProgramsFilesystem
  , .addPrograms
  , .commitAll
  , .printEntriesQuery
  , .printDirectoriesQuery
  , .printDirectoryMro
  , .printExecutableMro ]

/-- Run the straight-line script under a semantics `sem` that may raise at
any statement.  There is no `try`/`except` anywhere in the module, so the
runner has no handler: the first raised exception aborts the rest. -/
def runScript {E : Type} (sem : ScriptOp → Except E Unit) :
    List ScriptOp → Except E Unit
  | [] => Except.ok ()
  | op :: rest =>
      match sem op with
      | Except.error e => Except.error e
      | Except.ok _ => runScript sem rest

-- --[ Field checkers for the filesystem-propagation theorems ]--------------

/-- Every resource in the list has its `filesystem` relationship equal to
`v`. -/
def resourcesFsAll (v : Option FileSystem) (rs : List Resource) : Bool :=
  rs.all (fun r => decide (r.filesystem = v))

mutual

/-- The `_filesystem` column of this entry and of every entry reachable
through nested `entries` collections equals `g`. -/
def Entry.allFilesystemIs (g : Option FileSystem) : Entry → Bool
  | .file _ _ f => decide (f = g)
  | .executable _ _ _ _ f => decide (f = g)
  | .directory _ _ f es => decide (f = g) && Entry.allFilesystemIsList g es

/-- `Entry.allFilesystemIs` over a list of entries. -/
def Entry.allFilesystemIsList (g : Option FileSystem) : List Entry → Bool
  | [] => true
  | e :: es => Entry.allFilesystemIs g e && Entry.allFilesystemIsList g es

end

mutual

/-- Every resource of this entry and of every entry reachable through nested
`entries` collections has its `filesystem` relationship equal to `v`. -/
def Entry.allResourcesFsIs (v : Option FileSystem) : Entry → Bool
  | .file _ _ _ => true
  | .executable _ _ _ rb _ => resourcesFsAll v rb._resources
  | .directory _ rb _ es =>
      resourcesFsAll v rb._resources && Entry.allResourcesFsIsList v es

/-- `Entry.allResourcesFsIs` over a list of entries. -/
def Entry.allResourcesFsIsList (v : Option FileSystem) : List Entry → Bool
  | [] => true
  | e :: es => Entry.allResourcesFsIs v e && Entry.allResourcesFsIsList v es

end

-- --[ Concrete sample objects used in witnesses and counterexamples ]-------

/-- The `FileSystem("/dev/sda", "btrfs")` object the script binds to the
module-level global name `filesystem`. -/
def fsGlobal : FileSystem := { device := "/dev/sda", backend := "btrfs" }

/-- A second, distinct filesystem value. -/
def fsOther : FileSystem := { device := "/dev/sdb", backend := "ext4" }

/-- A plain file entry, as freshly constructed (no filesystem yet). -/
def childFile : Entry := Entry.file "dancing.mp4" none none

/-- A directory holding one plain file child. -/
def parentDir : Entry :=
  Entry.directory "Videos" (ResourcesBearer.init "json") none [childFile]

/-- A stand-in for the external `json.dumps` serializer, on `Nat` payloads. -/
def jsonDumpsNat (v : Nat) : String := "json:" ++ toString v

/-- A stand-in for the external `pickle.dumps` serializer, on `Nat`
payloads. -/
def pickleDumpsNat (v : Nat) : String := "pickle:" ++ toString v

-- --[ Theorems ]------------------------------------------------------------

/-- C3: any assignment `e.filesystem = v` that reaches the base
`EntryCommon.filesystem` setter (as it does for every plain `File`) stores
the object currently bound to the module-level global name `filesystem` into
`e._filesystem`, not the assigned value `v`: the result equals the global
binding `g` and is independent of `v`. -/
theorem entryCommon_setter_stores_global (g v w f0 : Option FileSystem)
    (n : String) (c : Option String) :
    (Entry.setFilesystem g v (Entry.file n c f0)).filesystem = g
    ∧ Entry.setFilesystem g v (Entry.file n c f0)
        = Entry.setFilesystem g w (Entry.file n c f0) :=
  ⟨rfl, rfl⟩

/-- C5: assigning `d.entries = es` through the association proxy creates
exactly one `DirectoryEntry` indirection record per assigned element, the
i-th record linking to the i-th element, and reading `d.entries` back yields
the assigned list in the same order. -/
theorem entries_proxy_roundtrip (d : DirectoryEntries) (es : List Entry) :
    (d.setEntries es).getEntries = es
    ∧ (d.setEntries es).directory_entries.length = es.length
    ∧ (d.setEntries es).directory_entries.map DirectoryEntry.entry = es := by
  refine ⟨?_, ?_, ?_⟩ <;>
    simp [DirectoryEntries.setEntries, DirectoryEntries.getEntries,
      Function.comp_def]

/-- C7: the script consults only `sys.argv[1]`: with at least one user
argument the first one is the database connection string (any further
arguments are ignored), and with no user argument the connection string
defaults to the ephemeral in-memory store `"sqlite:///"`. -/
theorem database_url_from_argv (prog u : String) (rest : List String) :
    database_url (prog :: u :: rest) = u
    ∧ database_url [prog] = "sqlite:///"
    ∧ database_url [] = "sqlite:///" := by
  refine ⟨?_, rfl, rfl⟩
  simp [database_url]

/-- C2: on a `ResourcesBearer` whose `resource_enc` is `"json"` or
`"pickle"`, `add_resource(name, value)` appends exactly one `Resource` with
that name whose stored value is the serialization of `value` by the selected
encoder (`json.dumps` for `"json"`, `pickle.dumps` for `"pickle"`). -/
theorem add_resource_appends_serialized {V : Type}
    (jsonDumps pickleDumps : V → String) (b : ResourcesBearer)
    (name : String) (value : V)
    (h : b.resource_enc = "json" ∨ b.resource_enc = "pickle") :
    ResourcesBearer.add_resource jsonDumps pickleDumps b name value =
      Except.ok { b with _resources := b._resources ++
        [Resource.init name
          ((if b.resource_enc = "json" then jsonDumps else pickleDumps) value)] } := by
  rcases h with h | h <;>
    simp [ResourcesBearer.add_resource, ResourcesBearer._lookup_encoder, h]

/-- Witness for C2: adding a resource to a json-encoded bearer stores the
json serialization. -/
theorem add_resource_appends_serialized_witness :
    ResourcesBearer.add_resource jsonDumpsNat pickleDumpsNat
        (ResourcesBearer.init "json") "Icon" 32 =
      Except.ok { resource_enc := "json",
                  _resources := [Resource.init "Icon" "json:32"] } := by
  have h := add_resource_appends_serialized jsonDumpsNat pickleDumpsNat
    (ResourcesBearer.init "json") "Icon" 32 (Or.inl rfl)
  simpa [ResourcesBearer.init, jsonDumpsNat] using h

/-- C9: on a `ResourcesBearer` whose `resource_enc` is neither `"json"` nor
`"pickle"`, `add_resource` raises `KeyError` from the encoder lookup (the
error carries the unknown key) and appends no resource; and a
`ResourcesBearer` constructed without an explicit `resource_enc` defaults to
`"json"`. -/
theorem add_resource_unknown_encoder {V : Type}
    (jsonDumps pickleDumps : V → String) :
    (∀ (b : ResourcesBearer) (n : String) (v : V),
        b.resource_enc ≠ "json" → b.resource_enc ≠ "pickle" →
        ResourcesBearer.add_resource jsonDumps pickleDumps b n v =
          Except.error b.resource_enc)
    ∧ ResourcesBearer.initDefault.resource_enc = "json" := by
  refine ⟨?_, rfl⟩
  intro b n v h1 h2
  simp [ResourcesBearer.add_resource, ResourcesBearer._lookup_encoder, h1, h2]

/-- Witness for C9: an unknown encoding name raises, and the default
encoding is json. -/
theorem add_resource_unknown_encoder_witness :
    ResourcesBearer.add_resource jsonDumpsNat pickleDumpsNat
        (ResourcesBearer.init "yaml") "Icon" 32 = Except.error "yaml"
    ∧ ResourcesBearer.initDefault.resource_enc = "json" :=
  ⟨(add_resource_unknown_encoder jsonDumpsNat pickleDumpsNat).1
      (ResourcesBearer.init "yaml") "Icon" 32 (by decide) (by decide),
   (add_resource_unknown_encoder jsonDumpsNat pickleDumpsNat).2⟩

/-- Counterexample to C1: with the module-level global `filesystem` bound to
`fsGlobal`, assigning `parentDir.filesystem = some fsOther` leaves the child
file's `_filesystem` equal to the global `fsGlobal`, not the assigned
`fsOther` — so not every entry in `d.entries` gets the assigned
filesystem. -/
theorem directory_setter_keeps_global_on_children :
    Entry.setFilesystem (some fsGlobal) (some fsOther) parentDir
      = Entry.directory "Videos" (ResourcesBearer.init "json") (some fsGlobal)
          [Entry.file "dancing.mp4" none (some fsGlobal)]
    ∧ ((Entry.setFilesystem (some fsGlobal) (some fsOther) parentDir).entries.all
        (fun e => decide (e.filesystem = some fsOther))) = false :=
  ⟨rfl, rfl⟩

mutual

/-- Joint induction behind `setFilesystem_fields`, on a single entry. -/
theorem setFilesystem_fields_aux (g v : Option FileSystem) (e : Entry) :
    Entry.allFilesystemIs g (Entry.setFilesystem g v e) = true
    ∧ Entry.allResourcesFsIs v (Entry.setFilesystem g v e) = true := by
  cases e with
  | file n c f =>
      simp [Entry.setFilesystem, Entry.allFilesystemIs, Entry.allResourcesFsIs]
  | executable n c w rb f =>
      simp [Entry.setFilesystem, Entry.allFilesystemIs, Entry.allResourcesFsIs,
        ResourcesBearer.setResourcesFs, resourcesFsAll, List.all_eq_true]
  | directory n rb f es =>
      have ih := setFilesystemList_fields_aux g v es
      simp [Entry.setFilesystem, Entry.allFilesystemIs, Entry.allResourcesFsIs,
        ResourcesBearer.setResourcesFs, resourcesFsAll, List.all_eq_true,
        ih.1, ih.2]

/-- Joint induction behind `setFilesystem_fields`, following the loop of
`Directory.filesystem`'s setter over the children. -/
theorem setFilesystemList_fields_aux (g v : Option FileSystem)
    (es : List Entry) :
    Entry.allFilesystemIsList g (Entry.setFilesystemList g v es) = true
    ∧ Entry.allResourcesFsIsList v (Entry.setFilesystemList g v es) = true := by
  cases es with
  | nil =>
      simp [Entry.setFilesystemList, Entry.allFilesystemIsList,
        Entry.allResourcesFsIsList]
  | cons e es =>
      have ih1 := setFilesystem_fields_aux g v e
      have ih2 := setFilesystemList_fields_aux g v es
      simp [Entry.setFilesystemList, Entry.allFilesystemIsList,
        Entry.allResourcesFsIsList, ih1.1, ih1.2, ih2.1, ih2.2]

end

/-- C1 (amended): assigning `d.filesystem = fs` sets the `filesystem` of
every `Resource` borne by `d` or by any `Directory`/`Executable` reached
recursively through `entries` to `fs`, while the `_filesystem` of `d` itself
and of every reached entry is set to the object currently bound to the
module-level global name `filesystem`, regardless of `fs`. -/
theorem setFilesystem_fields (g v : Option FileSystem) (e : Entry) :
    Entry.allFilesystemIs g (Entry.setFilesystem g v e) = true
    ∧ Entry.allResourcesFsIs v (Entry.setFilesystem g v e) = true :=
  setFilesystem_fields_aux g v e

/-- C4 counterexample: the script never calls `session.rollback()` — its
statement trace contains no rollback at all, so in particular no rollback
happens between the two printed views of the object graph. -/
theorem no_rollback_in_script : ScriptOp.rollback ∉ scriptTrace := by decide

/-- C4 (amended): the script prints the session's object graph twice — the
entries of the filesystem, then its directories — with both printed views
coming after the final commit; no rollback occurs anywhere in the script. -/
theorem prints_after_final_commit :
    ScriptOp.printEntriesQuery ∈ scriptTrace
    ∧ ScriptOp.printDirectoriesQuery ∈ scriptTrace
    ∧ scriptTrace.indexOf ScriptOp.commitAll
        < scriptTrace.indexOf ScriptOp.printEntriesQuery
    ∧ scriptTrace.indexOf ScriptOp.printEntriesQuery
        < scriptTrace.indexOf ScriptOp.printDirectoriesQuery
    ∧ ScriptOp.rollback ∉ scriptTrace := by decide

/-- C6: every concrete entry instance is (an instance of a subclass of)
`File` or `Directory`; every class of the hierarchy carrying a
`polymorphic_identity` lies in the `File` or `Directory` subclass family
(`Executable` lies in the `File` family); and the discriminator values that
occur are exactly those of these two families. -/
theorem entry_polymorphic_over_file_and_directory :
    (∀ e : Entry,
        EntryClass.isSubclassOf e.entryClass EntryClass.file = true
        ∨ EntryClass.isSubclassOf e.entryClass EntryClass.directory = true)
    ∧ (∀ c : EntryClass, (EntryClass.polymorphic_identity c).isSome = true →
        EntryClass.isSubclassOf c EntryClass.file = true
        ∨ EntryClass.isSubclassOf c EntryClass.directory = true)
    ∧ occurringIdentities = fileOrDirectoryFamilyIdentities := by
  refine ⟨?_, ?_, by decide⟩
  · intro e
    cases e <;> first | exact Or.inl rfl | exact Or.inr rfl
  · intro c h
    cases c <;> first | decide | simp [EntryClass.polymorphic_identity] at h

/-- Witness for C6: `Executable` carries a polymorphic identity and lies in
the `File` subclass family. -/
theorem entry_polymorphic_witness :
    (EntryClass.polymorphic_identity EntryClass.executable).isSome = true
    ∧ (EntryClass.isSubclassOf EntryClass.executable EntryClass.file = true
       ∨ EntryClass.isSubclassOf EntryClass.executable EntryClass.directory = true) :=
  ⟨by decide,
   entry_polymorphic_over_file_and_directory.2.1 EntryClass.executable (by decide)⟩

/-- Any exception raised at a statement aborts the remaining statements with
that exception, when every earlier statement succeeded. -/
theorem runScript_propagates {E : Type} (sem : ScriptOp → Except E Unit)
    (e : E) :
    ∀ (pre : List ScriptOp) (op : ScriptOp) (post : List ScriptOp),
      (∀ p ∈ pre, sem p = Except.ok ()) → sem op = Except.error e →
      runScript sem (pre ++ op :: post) = Except.error e := by
  intro pre
  induction pre with
  | nil =>
      intro op post _ herr
      simp [runScript, herr]
  | cons q pre ih =>
      intro op post hpre herr
      have hq : sem q = Except.ok () := hpre q (List.mem_cons_self q pre)
      have hrest : ∀ p ∈ pre, sem p = Except.ok () :=
        fun p hp => hpre p (List.mem_cons_of_mem q hp)
      simp [runScript, hq, ih op post hrest herr]

/-- C8: the module contains no exception handler, so the first exception
raised at any statement of the script propagates out and terminates the
whole run with that exception. -/
theorem script_propagates_exceptions {E : Type} (sem : ScriptOp → Except E Unit)
    (pre post : List ScriptOp) (op : ScriptOp) (e : E)
    (hsplit : scriptTrace = pre ++ op :: post)
    (hpre : ∀ p ∈ pre, sem p = Except.ok ())
    (herr : sem op = Except.error e) :
    runScript sem scriptTrace = Except.error e := by
  rw [hsplit]
  exact runScript_propagates sem e pre op post hpre herr

/-- A semantics in which the final commit raises an integrity error and
every other statement succeeds. -/
def semCommitFails : ScriptOp → Except String Unit :=
  fun op => if op = ScriptOp.commitAll then Except.error "IntegrityError"
            else Except.ok ()

/-- The statements of the script before the final commit. -/
def preCommit : List ScriptOp :=
  [ ScriptOp.declareSchemaAndClasses
  , ScriptOp.computeDatabaseUrl
  , ScriptOp.createEngine
  , ScriptOp.createAllTables
  , ScriptOp.openSession
  , ScriptOp.constructFilesystem
  , ScriptOp.addFilesystem
  , ScriptOp.commitFilesystem
  , ScriptOp.constructDocuments
  , ScriptOp.constructVideos
  , ScriptOp.addResourceVideosIcon
  , ScriptOp.assignDocumentsEntries
  , ScriptOp.assignVideosEntries
  , ScriptOp.setDocumentsFilesystem
  , ScriptOp.addDocuments
  , ScriptOp.constructPrograms
  , ScriptOp.constructCmdExe
  , ScriptOp.addResourceCmdExeIcon
  , ScriptOp.assignProgramsEntries
  , ScriptOp.setProgramsFilesystem
  , ScriptOp.addPrograms ]

/-- The statements of the script after the final commit. -/
def postCommit : List ScriptOp :=
  [ ScriptOp.printEntriesQuery
  , ScriptOp.printDirectoriesQuery
  , ScriptOp.printDirectoryMro
  , ScriptOp.printExecutableMro ]

/-- Witness for C8: if the final commit raises an integrity error, the run
of the script terminates with that error. -/
theorem script_propagates_exceptions_witness :
    runScript semCommitFails scriptTrace = Except.error "IntegrityError" :=
  script_propagates_exceptions semCommitFails preCommit postCommit
    ScriptOp.commitAll "IntegrityError" rfl
    (by intro p hp; fin_cases hp <;> rfl) rfl

/-- C10: the script's statements occur in the claimed order: schema and
class declarations, table creation against the selected database, session
opening, insertion of the sample `FileSystem`, construction of directories,
files and resources, collection mutation, the commits as authored, and
finally the printed queries for the filesystem's entries and its
directories. -/
theorem script_scenario_order :
    scriptTrace.indexOf ScriptOp.declareSchemaAndClasses
        < scriptTrace.indexOf ScriptOp.createAllTables
    ∧ scriptTrace.indexOf ScriptOp.computeDatabaseUrl
        < scriptTrace.indexOf ScriptOp.createEngine
    ∧ scriptTrace.indexOf ScriptOp.createEngine
        < scriptTrace.indexOf ScriptOp.createAllTables
    ∧ scriptTrace.indexOf ScriptOp.createAllTables
        < scriptTrace.indexOf ScriptOp.openSession
    ∧ scriptTrace.indexOf ScriptOp.openSession
        < scriptTrace.indexOf ScriptOp.addFilesystem
    ∧ scriptTrace.indexOf ScriptOp.addFilesystem
        < scriptTrace.indexOf ScriptOp.commitFilesystem
    ∧ scriptTrace.indexOf ScriptOp.commitFilesystem
        < scriptTrace.indexOf ScriptOp.constructDocuments
    ∧ scriptTrace.indexOf ScriptOp.constructDocuments
        < scriptTrace.indexOf ScriptOp.addResourceVideosIcon
    ∧ scriptTrace.indexOf ScriptOp.addResourceVideosIcon
        < scriptTrace.indexOf ScriptOp.assignDocumentsEntries
    ∧ scriptTrace.indexOf ScriptOp.assignDocumentsEntries
        < scriptTrace.indexOf ScriptOp.addDocuments
    ∧ scriptTrace.indexOf ScriptOp.addDocuments
        < scriptTrace.indexOf ScriptOp.assignProgramsEntries
    ∧ scriptTrace.indexOf ScriptOp.assignProgramsEntries
        < scriptTrace.indexOf ScriptOp.addPrograms
    ∧ scriptTrace.indexOf ScriptOp.addPrograms
        < scriptTrace.indexOf ScriptOp.commitAll
    ∧ scriptTrace.indexOf ScriptOp.commitAll
        < scriptTrace.indexOf ScriptOp.printEntriesQuery
    ∧ scriptTrace.indexOf ScriptOp.printEntriesQuery
        < scriptTrace.indexOf ScriptOp.printDirectoriesQuery := by
  decide

end MixinOverrides
